import Mathlib

/-!
Verification of the Quantum ESPRESSO cmake easyblock
(`easybuild/easyblocks/q/quantumespressocmake.py`).

The development shallowly embeds the three decision engines of the block:
* `configure_step` — the option resolver (feature flags, toolchain
  capabilities, detected dependencies, package version → build arguments),
  with `EasyBuildError`s modelled as `Except` errors carrying the state of
  the configuration object at the moment of the raise (Python mutates
  `self.cfg` in place, so arguments appended before a raise persist);
* `test_step` — the test-outcome evaluator (summary-line parsing, failure
  scanning against the allow-list, dual thresholds);
* `sanity_check_bins` — the target-to-artifact deriver of
  `sanity_check_step`.

Versions are lists of numeric segments ordered like Python's
`LooseVersion` (segment-wise numeric, shorter prefix first).
-/

namespace QE

/-- Segment-wise numeric version ordering, as Python `LooseVersion`
compares component lists: `[7,0] < [7,3] < [7,3,1]`, and a strict
prefix is smaller. -/
def verLt : List Nat → List Nat → Bool
  | [], [] => false
  | [], _ :: _ => true
  | _ :: _, [] => false
  | a :: as, b :: bs =>
    if a < b then true
    else if b < a then false
    else verLt as bs

/-- Compiler family of the toolchain; only Intel is distinguished by the
easyblock (`toolchain.INTELCOMP`). -/
inductive CompFam where
  | intel
  | other
deriving DecidableEq, Repr

/-- Toolchain capabilities read via `self.toolchain.options.get` and
`self.toolchain.comp_family()`. -/
structure Toolchain where
  usempi : Bool
  openmp : Bool
  comp_family : CompFam
deriving Repr

/-- The easyconfig options consulted by the easyblock
(`self.cfg.get(...)`), with the defaults of `extra_options`. -/
structure Cfg where
  with_cuda : Bool := false
  with_scalapack : Bool := true
  with_fox : Bool := false
  with_gipaw : Bool := true
  with_d3q : Bool := false
  with_qmcpack : Bool := false
  test_suite_nprocs : Nat := 1
  build_shared_libs : Bool := false
deriving Repr

/-- Mutable state of the easyblock object touched by configuration:
`self.cfg['configopts']` (append-only argument list), `self.check_bins`,
and the `LDFLAGS` environment entry. -/
structure St where
  configopts : List String
  check_bins : List String
  ldflags : String
deriving Repr, DecidableEq

/-- `self.cfg.update('configopts', s)`: append one argument. -/
def updateOpts (st : St) (s : String) : St :=
  { st with configopts := st.configopts ++ [s] }

/-- `_add_mpi`. -/
def add_mpi (tc : Toolchain) (st : St) : St :=
  if tc.usempi then updateOpts st "-DENABLE_MPI=ON" else st

/-- `_add_openmp`. -/
def add_openmp (tc : Toolchain) (st : St) : St :=
  if tc.openmp then updateOpts st "-DENABLE_OPENMP=ON" else st

/-- `_add_cuda`. -/
def add_cuda (cfg : Cfg) (st : St) : St :=
  if cfg.with_cuda then
    updateOpts (updateOpts st "-DQE_ENABLE_CUDA=ON") "-DQE_ENABLE_OPENACC=ON"
  else st

/-- `_add_toolchains_opts`: MPI, then OpenMP, then CUDA. -/
def add_toolchains_opts (cfg : Cfg) (tc : Toolchain) (st : St) : St :=
  add_cuda cfg (add_openmp tc (add_mpi tc st))

/-- `_add_scalapack`: validates the MPI prerequisite, then appends. -/
def add_scalapack (cfg : Cfg) (tc : Toolchain) (st : St) : Except (String × St) St :=
  if cfg.with_scalapack then
    if !tc.usempi then .error ("ScaLAPACK support requires MPI", st)
    else .ok (updateOpts st "-DQE_ENABLE_SCALAPACK=ON")
  else .ok st

/-- `_add_fox`. -/
def add_fox (cfg : Cfg) (st : St) : St :=
  if cfg.with_fox then updateOpts st "-DQE_ENABLE_FOX=ON" else st

/-- `_add_hdf5`: gated on presence of `HDF5` in the dependency set
(`get_software_root`). -/
def add_hdf5 (deps : List String) (st : St) : St :=
  if deps.contains "HDF5" then updateOpts st "-DQE_ENABLE_HDF5=ON" else st

/-- `_add_libxc`: gated on presence of `libxc` in the dependency set. -/
def add_libxc (deps : List String) (st : St) : St :=
  if deps.contains "libxc" then updateOpts st "-DQE_ENABLE_LIBXC=ON" else st

/-- `_add_elpa`: gated on presence of `ELPA`; validates the ScaLAPACK
prerequisite and the broken 7.3+OpenMP combination before appending. -/
def add_elpa (cfg : Cfg) (tc : Toolchain) (deps : List String) (ver : List Nat)
    (st : St) : Except (String × St) St :=
  if deps.contains "ELPA" then
    if !cfg.with_scalapack then
      .error ("ELPA support requires ScaLAPACK", st)
    else if ver = [7, 3] ∧ tc.openmp then
      .error ("QE 7.3 with cmake does not support ELPA with OpenMP", st)
    else .ok (updateOpts st "-DQE_ENABLE_ELPA=ON")
  else .ok st

/-- `_add_libraries`: ScaLAPACK, FoX, LibXC, ELPA, HDF5, in order. -/
def add_libraries (cfg : Cfg) (tc : Toolchain) (deps : List String)
    (ver : List Nat) (st : St) : Except (String × St) St :=
  match add_scalapack cfg tc st with
  | .error e => .error e
  | .ok st1 =>
    let st2 := add_fox cfg st1
    let st3 := add_libxc deps st2
    match add_elpa cfg tc deps ver st3 with
    | .error e => .error e
    | .ok st4 => .ok (add_hdf5 deps st4)

/-- Expected binary of the GIPAW plugin (`_add_gipaw`). -/
def gipaw_bins : List String := ["gipaw.x"]

/-- Expected binaries of the D3Q plugin (`_add_d3q`). -/
def d3q_bins : List String :=
  ["d3_asr3.x", "d3_lw.x", "d3_q2r.x", "d3_qq2rr.x", "d3q.x", "d3_r2q.x",
   "d3_recenter.x", "d3_sparse.x", "d3_sqom.x", "d3_tk.x"]

/-- Expected binary of the pw2qmcpack plugin (`_add_qmcpack`). -/
def qmcpack_bins : List String := ["pw2qmcpack.x"]

/-- `_add_gipaw`: returns the contributed plugin tokens; rejects the
exact broken release 7.3.1; extends `check_bins`. -/
def add_gipaw (cfg : Cfg) (ver : List Nat) (st : St) :
    Except (String × St) (List String × St) :=
  if cfg.with_gipaw then
    if ver = [7, 3, 1] then
      .error ("GIPAW will fail to compile in QE 7.3.1", st)
    else
      .ok (["gipaw"], { st with check_bins := st.check_bins ++ gipaw_bins })
  else .ok ([], st)

/-- `_add_d3q`: rejects any version strictly above 7.0; extends
`check_bins`. -/
def add_d3q (cfg : Cfg) (ver : List Nat) (st : St) :
    Except (String × St) (List String × St) :=
  if cfg.with_d3q then
    if verLt [7, 0] ver then
      .error ("D3Q is not supported in QE 7.0+", st)
    else
      .ok (["d3q"], { st with check_bins := st.check_bins ++ d3q_bins })
  else .ok ([], st)

/-- `_add_qmcpack`: no version restriction; extends `check_bins`. -/
def add_qmcpack (cfg : Cfg) (st : St) : List String × St :=
  if cfg.with_qmcpack then
    (["pw2qmcpack"], { st with check_bins := st.check_bins ++ qmcpack_bins })
  else ([], st)

/-- `';'.join(plugins)`. -/
def joinSemi : List String → String
  | [] => ""
  | [x] => x
  | x :: y :: xs => x ++ ";" ++ joinSemi (y :: xs)

/-- `_add_plugins`: GIPAW, D3Q, QMCPACK in order; if any token was
produced, emit the combined plugins argument. -/
def add_plugins (cfg : Cfg) (ver : List Nat) (st : St) :
    Except (String × St) St :=
  match add_gipaw cfg ver st with
  | .error e => .error e
  | .ok (p1, st1) =>
    match add_d3q cfg ver st1 with
    | .error e => .error e
    | .ok (p2, st2) =>
      match add_qmcpack cfg st2 with
      | (p3, st3) =>
        let plugins := p1 ++ p2 ++ p3
        if plugins.isEmpty then .ok st3
        else
          .ok (updateOpts st3
            ("-DQE_ENABLE_PLUGINS=\"" ++ joinSemi plugins ++ "\""))

/-- `configure_step` (the spec's `resolve`): the minimum-version gate,
then toolchain options, libraries, plugins, test-suite arguments, the
clock-format argument, and the Intel shared-libs linker workaround.
An error carries the state of the configuration object at the raise. -/
def configure_step (cfg : Cfg) (tc : Toolchain) (deps : List String)
    (ver : List Nat) (st0 : St) : Except (String × St) St :=
  if verLt ver [7, 3] then
    .error ("EB QuantumEspresso cmake is implemented for versions >= 7.3", st0)
  else
    let st1 := add_toolchains_opts cfg tc st0
    match add_libraries cfg tc deps ver st1 with
    | .error e => .error e
    | .ok st2 =>
      match add_plugins cfg ver st2 with
      | .error e => .error e
      | .ok st3 =>
        let st4 := updateOpts st3 "-DQE_ENABLE_TEST=ON"
        let st5 := updateOpts st4 ("-DTESTCODE_NPROCS=" ++ Nat.repr cfg.test_suite_nprocs)
        let st6 := updateOpts st5 "-DQE_CLOCK_SECONDS=ON"
        if cfg.build_shared_libs ∧ tc.comp_family = CompFam.intel then
          .ok { st6 with ldflags := st6.ldflags ++ " -Wl,--copy-dt-needed-entries " }
        else .ok st6

/-- Whether an `Except` computation raised. -/
def isErr : Except ε α → Bool
  | .error _ => true
  | .ok _ => false

/-! ## Test outcome evaluator (`test_step`) -/

/-- Split harness output into lines as Python `str.splitlines` does for
newline-separated text: no empty trailing line after a final newline,
and `""` has no lines. -/
def splitLines : List Char → List (List Char)
  | [] => []
  | c :: cs =>
    if c = '\n' then [] :: splitLines cs
    else
      match splitLines cs with
      | [] => [[c]]
      | l :: ls => (c :: l) :: ls

/-- Value of a digit run (most significant first). -/
def digitsToNat (ds : List Char) : Nat :=
  ds.foldl (fun n c => 10 * n + (c.toNat - 48)) 0

/-- Match a literal at the head of the input; return the rest. -/
def dropLit : List Char → List Char → Option (List Char)
  | [], l => some l
  | _ :: _, [] => none
  | a :: ps, b :: ls => if a = b then dropLit ps ls else none

/-- One line against the summary regex
`^ *(?P<perc>\d+)% tests passed, +(?P<failed>\d+) +tests failed out of +(?P<total>\d+)`:
returns the three captured numbers. The character classes of the regex
are disjoint from the literals that follow them, so maximal-munch
parsing coincides with the regex. -/
def parseSummary (l : List Char) : Option (Nat × Nat × Nat) :=
  let l1 := l.dropWhile (· = ' ')
  let ds1 := l1.takeWhile Char.isDigit
  if ds1.isEmpty then none else
  match dropLit ("% tests passed,".data) (l1.dropWhile Char.isDigit) with
  | none => none
  | some r2 =>
    if (r2.takeWhile (· = ' ')).isEmpty then none else
    let r3 := r2.dropWhile (· = ' ')
    let ds2 := r3.takeWhile Char.isDigit
    if ds2.isEmpty then none else
    let r4 := r3.dropWhile Char.isDigit
    if (r4.takeWhile (· = ' ')).isEmpty then none else
    match dropLit ("tests failed out of".data) (r4.dropWhile (· = ' ')) with
    | none => none
    | some r6 =>
      if (r6.takeWhile (· = ' ')).isEmpty then none else
      let ds3 := (r6.dropWhile (· = ' ')).takeWhile Char.isDigit
      if ds3.isEmpty then none else
      some (digitsToNat ds1, digitsToNat ds2, digitsToNat ds3)

/-- The failure marker: a line reports a failed test iff `***Failed`
occurs in it. -/
def failMarker (l : List Char) : Bool :=
  decide ("***Failed".data <:+: l)

/-- The inner allow-list loop of `test_step`: scan the rules in order,
stop at the first whose text occurs in the line (`allowed in line`). -/
def allowMatches : List (List Char) → List Char → Bool
  | [], _ => false
  | a :: rest, l => if a <:+: l then true else allowMatches rest l

/-- The failure scan of `test_step`: a line is collected (for-else
branch) iff it carries the failure marker and no allow rule matched. -/
def collectFailures (allow : List (List Char)) (lines : List (List Char)) :
    List (List Char) :=
  lines.filter (fun l => failMarker l && !allowMatches allow l)

/-- Outcomes of `test_step` other than success: the unparsable-summary
error and the two threshold errors, each carrying the values the raised
message reports. -/
inductive TestErr where
  | parse
  | rate (thr perc : ℚ)
  | failures (maxFail nfail : Nat)
deriving DecidableEq, Repr

/-- `test_step`: locate the summary line (first line matching the
pattern, as `re.search` with `MULTILINE` does), compute the raw rate,
collect unallowed failures, then enforce the rate threshold and the
unallowed-failure count threshold, in that order. -/
def test_step (out : List Char) (allow : List (List Char)) (thr : ℚ)
    (maxFail : Nat) : Except TestErr (ℚ × Nat × Nat) :=
  match (splitLines out).findSome? parseSummary with
  | none => .error .parse
  | some (pct, nfail0, total) =>
    let perc : ℚ := Rat.divInt (pct : ℤ) 100
    let failures := collectFailures allow (splitLines out)
    if perc < thr then .error (.rate thr perc)
    else if failures.length > maxFail then
      .error (.failures maxFail failures.length)
    else .ok (perc, total - nfail0, total)

/-! ## Artifact set deriver (`sanity_check_step`) -/

/-- Binaries of the `cp` target. -/
def cp_bins : List String := ["cp.x", "cppp.x", "manycp.x", "wfdd.x"]

/-- Binaries of the `epw` target. -/
def epw_bins : List String := ["epw.x"]

/-- Binaries of the `gwl` target. -/
def gwl_bins : List String :=
  ["abcoeff_to_eps.x", "bse_main.x", "graph.x", "gww_fit.x", "gww.x",
   "head.x", "memory_pw4gww.x", "pw4gww.x", "simple_bse.x", "simple_ip.x",
   "simple.x"]

/-- Binaries of the `hp` target. -/
def hp_bins : List String := ["hp.x"]

/-- Binaries of the `ld1` target. -/
def ld1_bins : List String := ["ld1.x"]

/-- Binaries of the `neb` target. -/
def neb_bins : List String := ["neb.x", "path_interpolation.x"]

/-- Binaries of the `ph` target. -/
def ph_bins : List String :=
  ["alpha2f.x", "dynmat.x", "fd_ef.x", "fd.x", "lambda.x", "phcg.x",
   "postahc.x", "q2r.x", "dvscf_q2r.x", "epa.x", "fd_ifc.x", "fqha.x",
   "matdyn.x", "ph.x", "q2qstar.x"]

/-- Binaries of the `pp` target. -/
def pp_bins : List String :=
  ["average.x", "dos_sp.x", "ef.x", "fermi_int_0.x", "fermi_proj.x", "fs.x",
   "molecularpdos.x", "pawplot.x", "plotband.x", "plotrho.x", "ppacf.x",
   "pp.x", "pw2bgw.x", "pw2gt.x", "pw2wannier90.x", "wannier_ham.x",
   "wfck2r.x", "bands.x", "dos.x", "epsilon.x", "fermi_int_1.x",
   "fermi_velocity.x", "initial_state.x", "open_grid.x", "plan_avg.x",
   "plotproj.x", "pmw.x", "pprism.x", "projwfc.x", "pw2critic.x", "pw2gw.x",
   "sumpdos.x", "wannier_plot.x"]

/-- Binaries of the `pw` target. -/
def pw_bins : List String :=
  ["cell2ibrav.x", "ev.x", "ibrav2cell.x", "kpoints.x", "pwi2xsf.x", "pw.x",
   "scan_ibrav.x"]

/-- Binaries of the `pwcond` target. -/
def pwcond_bins : List String := ["pwcond.x"]

/-- Binaries of the `tddfpt` target. -/
def tddfpt_bins : List String :=
  ["turbo_davidson.x", "turbo_eels.x", "turbo_lanczos.x", "turbo_magnon.x",
   "turbo_spectrum.x"]

/-- Binaries of the `upf` target. -/
def upf_bins : List String := ["upfconv.x", "virtual_v2.x"]

/-- Binaries of the `xspectra` target. -/
def xspectra_bins : List String :=
  ["molecularnexafs.x", "spectra_correction.x", "xspectra.x"]

/-- The expected-binary derivation of `sanity_check_step`: starting from
the plugin-contributed `self.check_bins`, each target branch appends its
fixed list when selected. An empty target list or the `all_currents`
token selects every branch; the `pwall` umbrella additionally selects
`neb`, `ph`, `pp`, `pw` and `pwcond`. -/
def sanity_check_bins (check_bins targets : List String) : List String :=
  let all_cond := targets.length == 0 || targets.contains "all_currents"
  let pwall_cond := targets.contains "pwall"
  check_bins
    ++ (if all_cond || targets.contains "cp" then cp_bins else [])
    ++ (if all_cond || targets.contains "epw" then epw_bins else [])
    ++ (if all_cond || targets.contains "gwl" then gwl_bins else [])
    ++ (if all_cond || targets.contains "hp" then hp_bins else [])
    ++ (if all_cond || targets.contains "ld1" then ld1_bins else [])
    ++ (if all_cond || pwall_cond || targets.contains "neb" then neb_bins else [])
    ++ (if all_cond || pwall_cond || targets.contains "ph" then ph_bins else [])
    ++ (if all_cond || pwall_cond || targets.contains "pp" then pp_bins else [])
    ++ (if all_cond || pwall_cond || targets.contains "pw" then pw_bins else [])
    ++ (if all_cond || pwall_cond || targets.contains "pwcond" then pwcond_bins else [])
    ++ (if all_cond || targets.contains "tddfpt" then tddfpt_bins else [])
    ++ (if all_cond || targets.contains "upf" then upf_bins else [])
    ++ (if all_cond || targets.contains "xspectra" then xspectra_bins else [])

/-- The union of every catalog entry, in branch order. -/
def catalogUnion : List String :=
  cp_bins ++ epw_bins ++ gwl_bins ++ hp_bins ++ ld1_bins ++ neb_bins ++
  ph_bins ++ pp_bins ++ pw_bins ++ pwcond_bins ++ tddfpt_bins ++ upf_bins ++
  xspectra_bins

/-- Every plugin-contributed binary (the three `_add_*` plugin rules, in
the order `_add_plugins` runs them). -/
def pluginUnion : List String := gipaw_bins ++ d3q_bins ++ qmcpack_bins

/-- The plugin-contributed binaries for a given configuration, in the
order `_add_plugins` appends them. -/
def pluginBins (cfg : Cfg) : List String :=
  (if cfg.with_gipaw then gipaw_bins else []) ++
  (if cfg.with_d3q then d3q_bins else []) ++
  (if cfg.with_qmcpack then qmcpack_bins else [])

/-! ## Helper lemmas -/

/-- A version that is not below `7.3` is above `7.0`. -/
theorem verLt_seventy_of_not_lt_73 (v : List Nat) (h : verLt v [7, 3] = false) :
    verLt [7, 0] v = true := by
  match v with
  | [] => simp [verLt] at h
  | a :: t =>
    rw [verLt] at h ⊢
    by_cases h7 : 7 < a
    · simp [h7, Nat.lt_asymm h7]
    · by_cases ha : a < 7
      · simp [ha] at h
      · have ha7 : a = 7 := Nat.le_antisymm (Nat.not_lt.mp h7) (Nat.not_lt.mp ha)
        subst ha7
        simp only [Nat.lt_irrefl, if_false] at h ⊢
        match t with
        | [] => simp [verLt] at h
        | b :: t' =>
          rw [verLt] at h ⊢
          by_cases hb : b < 3
          · simp [hb] at h
          · have : 0 < b := Nat.lt_of_lt_of_le (by omega) (Nat.not_lt.mp hb)
            simp [this]

/-- The inner allow-list loop returns true iff some rule occurs in the
line. -/
theorem allowMatches_iff (allow : List (List Char)) (l : List Char) :
    allowMatches allow l = true ↔ ∃ a ∈ allow, a <:+: l := by
  induction allow with
  | nil => simp [allowMatches]
  | cons a rest ih =>
    rw [allowMatches]
    by_cases h : a <:+: l
    · simp [h]
    · simp [h, ih]

/-- The inner allow-list loop returns false iff no rule occurs in the
line. -/
theorem allowMatches_eq_false (allow : List (List Char)) (l : List Char) :
    allowMatches allow l = false ↔ ¬ ∃ a ∈ allow, a <:+: l := by
  rw [← allowMatches_iff]
  cases h : allowMatches allow l <;> simp

/-- `_add_scalapack` only errors with the MPI message, carrying the
untouched input state. -/
theorem add_scalapack_error_eq {cfg : Cfg} {tc : Toolchain} {st : St}
    {e : String × St} (h : add_scalapack cfg tc st = .error e) :
    e = ("ScaLAPACK support requires MPI", st) := by
  unfold add_scalapack at h
  split at h
  · split at h
    · exact (Except.error.injEq _ _).mp h.symm ▸ rfl
    · cases h
  · cases h

/-- `_add_elpa` errors carry the untouched input state, with one of its
two messages. -/
theorem add_elpa_error_eq {cfg : Cfg} {tc : Toolchain} {deps : List String}
    {ver : List Nat} {st : St} {e : String × St}
    (h : add_elpa cfg tc deps ver st = .error e) :
    e.2 = st ∧ (e.1 = "ELPA support requires ScaLAPACK" ∨
      e.1 = "QE 7.3 with cmake does not support ELPA with OpenMP") := by
  unfold add_elpa at h
  split at h
  · split at h
    · cases h; exact ⟨rfl, Or.inl rfl⟩
    · split at h
      · cases h; exact ⟨rfl, Or.inr rfl⟩
      · cases h
  · cases h

/-- `_add_gipaw` only errors with its 7.3.1 message, carrying the
untouched input state. -/
theorem add_gipaw_error_eq {cfg : Cfg} {ver : List Nat} {st : St}
    {e : String × St} (h : add_gipaw cfg ver st = .error e) :
    e = ("GIPAW will fail to compile in QE 7.3.1", st) := by
  unfold add_gipaw at h
  split at h
  · split at h
    · cases h; rfl
    · cases h
  · cases h

/-- `_add_d3q` only errors with its version message, carrying the
untouched input state. -/
theorem add_d3q_error_eq {cfg : Cfg} {ver : List Nat} {st : St}
    {e : String × St} (h : add_d3q cfg ver st = .error e) :
    e = ("D3Q is not supported in QE 7.0+", st) := by
  unfold add_d3q at h
  split at h
  · split at h
    · cases h; rfl
    · cases h
  · cases h

/-- `_add_plugins` errors carry one of the two plugin messages. -/
theorem add_plugins_error_msg {cfg : Cfg} {ver : List Nat} {st : St}
    {e : String × St} (h : add_plugins cfg ver st = .error e) :
    e.1 = "GIPAW will fail to compile in QE 7.3.1" ∨
      e.1 = "D3Q is not supported in QE 7.0+" := by
  unfold add_plugins at h
  cases hg : add_gipaw cfg ver st with
  | error eg =>
    rw [hg] at h
    cases h
    have h1 := add_gipaw_error_eq hg
    subst h1
    exact Or.inl rfl
  | ok pst =>
    obtain ⟨p1, st1⟩ := pst
    rw [hg] at h
    dsimp only at h
    cases hd : add_d3q cfg ver st1 with
    | error ed =>
      rw [hd] at h
      cases h
      have h2 := add_d3q_error_eq hd
      subst h2
      exact Or.inr rfl
    | ok pst2 =>
      obtain ⟨p2, st2⟩ := pst2
      rw [hd] at h
      dsimp only at h
      split at h <;> cases h

/-- `updateOpts` only touches `configopts`. -/
theorem updateOpts_check_bins (st : St) (s : String) :
    (updateOpts st s).check_bins = st.check_bins := rfl

/-- The toolchain group never touches `check_bins`. -/
theorem add_toolchains_opts_check_bins (cfg : Cfg) (tc : Toolchain) (st : St) :
    (add_toolchains_opts cfg tc st).check_bins = st.check_bins := by
  unfold add_toolchains_opts add_cuda add_openmp add_mpi
  split <;> split <;> split <;> rfl

/-- A successful `_add_scalapack` never touches `check_bins`. -/
theorem add_scalapack_ok_check_bins {cfg : Cfg} {tc : Toolchain} {st st' : St}
    (h : add_scalapack cfg tc st = .ok st') :
    st'.check_bins = st.check_bins := by
  unfold add_scalapack at h
  split at h
  · split at h
    · cases h
    · cases h; rfl
  · cases h; rfl

/-- A successful library group never touches `check_bins`. -/
theorem add_libraries_ok_check_bins {cfg : Cfg} {tc : Toolchain}
    {deps : List String} {ver : List Nat} {st st' : St}
    (h : add_libraries cfg tc deps ver st = .ok st') :
    st'.check_bins = st.check_bins := by
  unfold add_libraries at h
  cases hs : add_scalapack cfg tc st with
  | error e => rw [hs] at h; cases h
  | ok st1 =>
    rw [hs] at h
    dsimp only at h
    have h1 : st1.check_bins = st.check_bins := add_scalapack_ok_check_bins hs
    have h2 : (add_libxc deps (add_fox cfg st1)).check_bins = st1.check_bins := by
      unfold add_libxc add_fox
      split <;> split <;> rfl
    cases he : add_elpa cfg tc deps ver (add_libxc deps (add_fox cfg st1)) with
    | error e => rw [he] at h; cases h
    | ok st4 =>
      rw [he] at h
      cases h
      have h3 : st4.check_bins = (add_libxc deps (add_fox cfg st1)).check_bins := by
        unfold add_elpa at he
        split at he
        · split at he
          · cases he
          · split at he
            · cases he
            · cases he; rfl
        · cases he; rfl
      have h4 : ∀ s : St, (add_hdf5 deps s).check_bins = s.check_bins := by
        intro s; unfold add_hdf5; split <;> rfl
      rw [h4, h3, h2, h1]

/-- A successful `_add_gipaw` appends exactly its binaries. -/
theorem add_gipaw_ok_check_bins {cfg : Cfg} {ver : List Nat} {st : St}
    {p : List String} {st' : St} (h : add_gipaw cfg ver st = .ok (p, st')) :
    st'.check_bins = st.check_bins ++ (if cfg.with_gipaw then gipaw_bins else []) := by
  unfold add_gipaw at h
  split at h
  · split at h
    · cases h
    · cases h; simp_all
  · cases h; simp_all

/-- A successful `_add_d3q` appends exactly its binaries. -/
theorem add_d3q_ok_check_bins {cfg : Cfg} {ver : List Nat} {st : St}
    {p : List String} {st' : St} (h : add_d3q cfg ver st = .ok (p, st')) :
    st'.check_bins = st.check_bins ++ (if cfg.with_d3q then d3q_bins else []) := by
  unfold add_d3q at h
  split at h
  · split at h
    · cases h
    · cases h; simp_all
  · cases h; simp_all

/-- `_add_qmcpack` appends exactly its binaries. -/
theorem add_qmcpack_check_bins (cfg : Cfg) (st : St) :
    (add_qmcpack cfg st).2.check_bins =
      st.check_bins ++ (if cfg.with_qmcpack then qmcpack_bins else []) := by
  unfold add_qmcpack
  split <;> simp_all

/-- A successful `_add_plugins` appends exactly the plugin binaries of
the configuration. -/
theorem add_plugins_ok_check_bins {cfg : Cfg} {ver : List Nat} {st st' : St}
    (h : add_plugins cfg ver st = .ok st') :
    st'.check_bins = st.check_bins ++ pluginBins cfg := by
  unfold add_plugins at h
  cases hg : add_gipaw cfg ver st with
  | error e => rw [hg] at h; cases h
  | ok pst =>
    obtain ⟨p1, st1⟩ := pst
    rw [hg] at h
    dsimp only at h
    cases hd : add_d3q cfg ver st1 with
    | error e => rw [hd] at h; cases h
    | ok pst2 =>
      obtain ⟨p2, st2⟩ := pst2
      rw [hd] at h
      dsimp only at h
      have hbins : (add_qmcpack cfg st2).2.check_bins =
          st.check_bins ++ pluginBins cfg := by
        rw [add_qmcpack_check_bins, add_d3q_ok_check_bins hd,
          add_gipaw_ok_check_bins hg, pluginBins]
        simp [List.append_assoc]
      split at h
      · cases h
        rw [hbins]
      · cases h
        rw [updateOpts_check_bins, hbins]

/-- A successful `configure_step` leaves `check_bins` equal to the
initial binaries plus exactly the plugin binaries. -/
theorem configure_step_ok_check_bins {cfg : Cfg} {tc : Toolchain}
    {deps : List String} {ver : List Nat} {st0 st : St}
    (h : configure_step cfg tc deps ver st0 = .ok st) :
    st.check_bins = st0.check_bins ++ pluginBins cfg := by
  unfold configure_step at h
  split at h
  · cases h
  · dsimp only at h
    cases hl : add_libraries cfg tc deps ver (add_toolchains_opts cfg tc st0) with
    | error e => rw [hl] at h; cases h
    | ok st2 =>
      rw [hl] at h
      dsimp only at h
      cases hp : add_plugins cfg ver st2 with
      | error e => rw [hp] at h; cases h
      | ok st3 =>
        rw [hp] at h
        dsimp only at h
        have hc : st3.check_bins = st0.check_bins ++ pluginBins cfg := by
          rw [add_plugins_ok_check_bins hp, add_libraries_ok_check_bins hl,
            add_toolchains_opts_check_bins]
        split at h <;> cases h <;> simpa using hc

/-- `if c then l else []` is a sublist of `l`. -/
theorem ite_sublist (c : Prop) [Decidable c] (l : List α) :
    (if c then l else []).Sublist l := by
  split
  · exact List.Sublist.refl l
  · exact List.nil_sublist l

/-- Whatever is selected, the sanity-check derivation is a sublist of
the initial binaries followed by the full catalog union. -/
theorem sanity_check_bins_sublist (cb tgs : List String) :
    (sanity_check_bins cb tgs).Sublist (cb ++ catalogUnion) := by
  unfold sanity_check_bins catalogUnion
  simp only [List.append_assoc]
  refine (List.Sublist.refl cb).append ?_
  refine (ite_sublist _ _).append ?_
  refine (ite_sublist _ _).append ?_
  refine (ite_sublist _ _).append ?_
  refine (ite_sublist _ _).append ?_
  refine (ite_sublist _ _).append ?_
  refine (ite_sublist _ _).append ?_
  refine (ite_sublist _ _).append ?_
  refine (ite_sublist _ _).append ?_
  refine (ite_sublist _ _).append ?_
  refine (ite_sublist _ _).append ?_
  refine (ite_sublist _ _).append ?_
  refine (ite_sublist _ _).append ?_
  exact ite_sublist _ _

/-- The plugin binaries of any configuration form a sublist of the full
plugin union. -/
theorem pluginBins_sublist (cfg : Cfg) : (pluginBins cfg).Sublist pluginUnion := by
  unfold pluginBins pluginUnion
  simp only [List.append_assoc]
  refine (ite_sublist _ _).append ?_
  refine (ite_sublist _ _).append ?_
  exact ite_sublist _ _

/-- No binary name appears twice across the plugin rules and the target
catalog. -/
theorem master_nodup : (pluginUnion ++ catalogUnion).Nodup := by decide

/-! ## Claims -/

/-- C2 (counterexample): the literal token `all` does not trigger the
build-everything derivation: `derive` on `["all"]` selects no catalog
entry at all, and so differs from the empty target list, which selects
every entry. -/
theorem c2_all_literal_token_differs :
    sanity_check_bins [] ["all"] = [] ∧
    sanity_check_bins [] ["all"] ≠ sanity_check_bins [] [] :=
  ⟨rfl, by decide⟩

/-- C2 (amended): the designated build-everything token is
`all_currents`: for every set of feature-extra binaries, deriving with an
empty requested-target list equals deriving with `["all_currents"]`, and
both equal the extras followed by the union of every catalog entry. -/
theorem c2_empty_eq_all_currents_eq_union (extras : List String) :
    sanity_check_bins extras [] = sanity_check_bins extras ["all_currents"] ∧
    sanity_check_bins extras [] = extras ++ catalogUnion := by
  constructor
  · rfl
  · simp +decide [sanity_check_bins, catalogUnion, List.append_assoc]

/-- C8: every artifact derived for any of the targets `ph`, `pp`, `pw`,
`neb`, `pwcond` alone is also derived for the single umbrella target
`pwall` (with no feature extras). -/
theorem c8_pwall_superset_of_subtargets :
    (sanity_check_bins [] ["ph"] ++ sanity_check_bins [] ["pp"] ++
     sanity_check_bins [] ["pw"] ++ sanity_check_bins [] ["neb"] ++
     sanity_check_bins [] ["pwcond"]) ⊆ sanity_check_bins [] ["pwall"] := by
  decide

/-- C9: after any successful configuration (which contributes the
feature-conditional plugin binaries to `check_bins`), the artifact list
derived by the sanity check contains no duplicate basename, for every
requested-target list. -/
theorem c9_derived_artifacts_nodup (cfg : Cfg) (tc : Toolchain)
    (deps : List String) (ver : List Nat) (st0 st : St)
    (targets : List String) (h0 : st0.check_bins = [])
    (h : configure_step cfg tc deps ver st0 = .ok st) :
    (sanity_check_bins st.check_bins targets).Nodup := by
  have hcb : st.check_bins = pluginBins cfg := by
    rw [configure_step_ok_check_bins h, h0]; rfl
  have hs : (sanity_check_bins st.check_bins targets).Sublist
      (pluginUnion ++ catalogUnion) := by
    rw [hcb]
    exact (sanity_check_bins_sublist _ _).trans
      ((pluginBins_sublist cfg).append (List.Sublist.refl _))
  exact List.Nodup.sublist hs master_nodup

/-- C9 (witness): the default configuration on QE 7.4 (MPI toolchain, no
external dependencies) succeeds and yields a duplicate-free artifact list
for the `pwall` target scope. -/
theorem c9_derived_artifacts_nodup_witness :
    (sanity_check_bins
      (St.mk ["-DENABLE_MPI=ON", "-DQE_ENABLE_SCALAPACK=ON",
          "-DQE_ENABLE_PLUGINS=\"gipaw\"", "-DQE_ENABLE_TEST=ON",
          "-DTESTCODE_NPROCS=1", "-DQE_CLOCK_SECONDS=ON"]
        ["gipaw.x"] "").check_bins ["pwall"]).Nodup :=
  c9_derived_artifacts_nodup {} ⟨true, false, CompFam.other⟩ [] [7, 4]
    ⟨[], [], ""⟩ _ ["pwall"] rfl rfl

/-- A library-group error bearing the ScaLAPACK message comes from the
ScaLAPACK rule itself and carries the untouched input state. -/
theorem add_libraries_scalapack_error {cfg : Cfg} {tc : Toolchain}
    {deps : List String} {ver : List Nat} {st : St} {e : String × St}
    (h : add_libraries cfg tc deps ver st = .error e)
    (hm : e.1 = "ScaLAPACK support requires MPI") : e.2 = st := by
  unfold add_libraries at h
  cases hs : add_scalapack cfg tc st with
  | error es =>
    rw [hs] at h
    cases h
    have h1 := add_scalapack_error_eq hs
    subst h1
    rfl
  | ok st1 =>
    rw [hs] at h
    dsimp only at h
    cases he : add_elpa cfg tc deps ver (add_libxc deps (add_fox cfg st1)) with
    | error ee =>
      rw [he] at h
      cases h
      rcases (add_elpa_error_eq he).2 with h1 | h1 <;> rw [h1] at hm <;>
        exact absurd hm (by decide)
    | ok st4 =>
      rw [he] at h
      cases h

/-- C1 (counterexample): a ScaLAPACK-without-MPI request on an
OpenMP toolchain aborts with a `ConfigurationError`, yet the accumulated
argument list already holds the OpenMP argument appended by the earlier
toolchain rule: the state is not unchanged from before the call. -/
theorem c1_invalid_combination_leaves_partial_arguments :
    configure_step { with_scalapack := true } ⟨false, true, CompFam.other⟩ []
        [7, 3] ⟨[], [], ""⟩
      = .error ("ScaLAPACK support requires MPI",
          ⟨["-DENABLE_OPENMP=ON"], [], ""⟩)
    ∧ (["-DENABLE_OPENMP=ON"] : List String) ≠ [] :=
  ⟨rfl, by decide⟩

/-- C1 (amended): each validating rule completes its feature-combination
check before appending its own argument — an erroring rule returns its
input state untouched — but arguments appended by rules that completed
earlier are not rolled back: a ScaLAPACK-requires-MPI failure carries
exactly the arguments accumulated by the toolchain group. -/
theorem c1_validation_precedes_own_append :
    (∀ (cfg : Cfg) (tc : Toolchain) (st : St) (e : String × St),
      add_scalapack cfg tc st = .error e → e.2 = st)
    ∧ (∀ (cfg : Cfg) (tc : Toolchain) (deps : List String) (ver : List Nat)
        (st : St) (e : String × St),
      add_elpa cfg tc deps ver st = .error e → e.2 = st)
    ∧ (∀ (cfg : Cfg) (ver : List Nat) (st : St) (e : String × St),
      add_gipaw cfg ver st = .error e → e.2 = st)
    ∧ (∀ (cfg : Cfg) (ver : List Nat) (st : St) (e : String × St),
      add_d3q cfg ver st = .error e → e.2 = st)
    ∧ (∀ (cfg : Cfg) (tc : Toolchain) (deps : List String) (ver : List Nat)
        (st0 st' : St),
      configure_step cfg tc deps ver st0
        = .error ("ScaLAPACK support requires MPI", st') →
      st' = add_toolchains_opts cfg tc st0) := by
  refine ⟨?_, ?_, ?_, ?_, ?_⟩
  · intro cfg tc st e h
    rw [add_scalapack_error_eq h]
  · intro cfg tc deps ver st e h
    exact (add_elpa_error_eq h).1
  · intro cfg ver st e h
    rw [add_gipaw_error_eq h]
  · intro cfg ver st e h
    rw [add_d3q_error_eq h]
  · intro cfg tc deps ver st0 st' h
    unfold configure_step at h
    split at h
    · rw [Except.error.injEq, Prod.mk.injEq] at h
      exact absurd h.1 (by decide)
    · dsimp only at h
      cases hl : add_libraries cfg tc deps ver (add_toolchains_opts cfg tc st0) with
      | error e =>
        rw [hl] at h
        cases h
        exact (add_libraries_scalapack_error hl rfl).symm ▸ rfl
      | ok st2 =>
        rw [hl] at h
        dsimp only at h
        cases hp : add_plugins cfg ver st2 with
        | error e =>
          rw [hp] at h
          cases h
          rcases add_plugins_error_msg hp with h1 | h1
          · exact absurd (show ("ScaLAPACK support requires MPI" : String)
              = "GIPAW will fail to compile in QE 7.3.1" from h1) (by decide)
          · exact absurd (show ("ScaLAPACK support requires MPI" : String)
              = "D3Q is not supported in QE 7.0+" from h1) (by decide)
        | ok st3 =>
          rw [hp] at h
          dsimp only at h
          split at h <;> cases h

/-- C1 (witness): on the concrete failing input of the counterexample,
the error state is exactly the toolchain-group state. -/
theorem c1_validation_precedes_own_append_witness :
    (⟨["-DENABLE_OPENMP=ON"], [], ""⟩ : St)
      = add_toolchains_opts { with_scalapack := true }
          ⟨false, true, CompFam.other⟩ ⟨[], [], ""⟩ :=
  c1_validation_precedes_own_append.2.2.2.2 { with_scalapack := true }
    ⟨false, true, CompFam.other⟩ [] [7, 3] ⟨[], [], ""⟩ _ rfl

/-- C5 (counterexample): with ScaLAPACK requested and MPI disabled but a
version below the documented minimum, `configure_step` fails with the
minimum-version message, which does not cite the MPI requirement — so the
cited-MPI failure does not hold regardless of all other inputs. -/
theorem c5_below_min_version_cites_version_not_mpi :
    configure_step { with_scalapack := true } ⟨false, false, CompFam.other⟩ []
        [6, 0] ⟨[], [], ""⟩
      = .error ("EB QuantumEspresso cmake is implemented for versions >= 7.3",
          ⟨[], [], ""⟩)
    ∧ ("EB QuantumEspresso cmake is implemented for versions >= 7.3" : String)
        ≠ "ScaLAPACK support requires MPI" :=
  ⟨rfl, by decide⟩

/-- C5 (amended): for every input whose version passes the
minimum-version gate, ScaLAPACK requested with MPI disabled fails with
the `ConfigurationError` citing the MPI requirement, regardless of all
other inputs. -/
theorem c5_scalapack_requires_mpi (cfg : Cfg) (tc : Toolchain)
    (deps : List String) (ver : List Nat) (st0 : St)
    (hver : verLt ver [7, 3] = false) (hs : cfg.with_scalapack = true)
    (hm : tc.usempi = false) :
    configure_step cfg tc deps ver st0
      = .error ("ScaLAPACK support requires MPI",
          add_toolchains_opts cfg tc st0) := by
  have hsc : add_scalapack cfg tc (add_toolchains_opts cfg tc st0)
      = .error ("ScaLAPACK support requires MPI",
          add_toolchains_opts cfg tc st0) := by
    unfold add_scalapack
    rw [hs, hm]
    rfl
  have hlib : add_libraries cfg tc deps ver (add_toolchains_opts cfg tc st0)
      = .error ("ScaLAPACK support requires MPI",
          add_toolchains_opts cfg tc st0) := by
    unfold add_libraries
    rw [hsc]
  unfold configure_step
  rw [if_neg (by simp [hver])]
  dsimp only
  rw [hlib]

/-- C5 (witness): concrete instance of the amended claim on QE 7.3. -/
theorem c5_scalapack_requires_mpi_witness :
    configure_step { with_scalapack := true } ⟨false, true, CompFam.other⟩ []
        [7, 3] ⟨[], [], ""⟩
      = .error ("ScaLAPACK support requires MPI",
          add_toolchains_opts { with_scalapack := true }
            ⟨false, true, CompFam.other⟩ ⟨[], [], ""⟩) :=
  c5_scalapack_requires_mpi { with_scalapack := true }
    ⟨false, true, CompFam.other⟩ [] [7, 3] ⟨[], [], ""⟩ rfl rfl rfl

/-- C6: an eigensolver library (ELPA) present in the dependency set with
ScaLAPACK disabled always aborts configuration with a
`ConfigurationError`, regardless of all other inputs. -/
theorem c6_elpa_requires_scalapack (cfg : Cfg) (tc : Toolchain)
    (deps : List String) (ver : List Nat) (st0 : St)
    (hs : cfg.with_scalapack = false) (he : "ELPA" ∈ deps) :
    isErr (configure_step cfg tc deps ver st0) = true := by
  unfold configure_step
  split
  · rfl
  · dsimp only
    have hc : deps.contains "ELPA" = true := List.elem_iff.mpr he
    have hsc : add_scalapack cfg tc (add_toolchains_opts cfg tc st0)
        = .ok (add_toolchains_opts cfg tc st0) := by
      unfold add_scalapack
      rw [hs]
      rfl
    have hel : add_elpa cfg tc deps ver
        (add_libxc deps (add_fox cfg (add_toolchains_opts cfg tc st0)))
        = .error ("ELPA support requires ScaLAPACK",
            add_libxc deps (add_fox cfg (add_toolchains_opts cfg tc st0))) := by
      unfold add_elpa
      rw [hc, hs]
      rfl
    have hlib : add_libraries cfg tc deps ver (add_toolchains_opts cfg tc st0)
        = .error ("ELPA support requires ScaLAPACK",
            add_libxc deps (add_fox cfg (add_toolchains_opts cfg tc st0))) := by
      unfold add_libraries
      rw [hsc]
      dsimp only
      rw [hel]
    rw [hlib]
    rfl

/-- C6 (witness): ELPA detected, ScaLAPACK disabled, on QE 7.4. -/
theorem c6_elpa_requires_scalapack_witness :
    isErr (configure_step { with_scalapack := false }
      ⟨true, false, CompFam.other⟩ ["ELPA"] [7, 4] ⟨[], [], ""⟩) = true :=
  c6_elpa_requires_scalapack { with_scalapack := false }
    ⟨true, false, CompFam.other⟩ ["ELPA"] [7, 4] ⟨[], [], ""⟩ rfl
    (by decide)

/-- C10: the D3Q plugin rule rejects every version strictly above 7.0,
while the configuration gate rejects every version below 7.3; hence with
D3Q requested, every version passing the minimum-version gate makes
`configure_step` raise: no accepted version can enable D3Q. -/
theorem c10_d3q_never_enabled :
    (∀ (cfg : Cfg) (ver : List Nat) (st : St), cfg.with_d3q = true →
      verLt [7, 0] ver = true →
      add_d3q cfg ver st = .error ("D3Q is not supported in QE 7.0+", st))
    ∧ (∀ (cfg : Cfg) (tc : Toolchain) (deps : List String) (ver : List Nat)
        (st0 : St), cfg.with_d3q = true → verLt ver [7, 3] = false →
      isErr (configure_step cfg tc deps ver st0) = true) := by
  have hrule : ∀ (cfg : Cfg) (ver : List Nat) (st : St), cfg.with_d3q = true →
      verLt [7, 0] ver = true →
      add_d3q cfg ver st = .error ("D3Q is not supported in QE 7.0+", st) := by
    intro cfg ver st hd h70
    unfold add_d3q
    rw [hd, h70]
    rfl
  refine ⟨hrule, ?_⟩
  intro cfg tc deps ver st0 hd hver
  have h70 := verLt_seventy_of_not_lt_73 ver hver
  have hplug : ∀ st : St, isErr (add_plugins cfg ver st) = true := by
    intro st
    unfold add_plugins
    cases hg : add_gipaw cfg ver st with
    | error e => rfl
    | ok p =>
      obtain ⟨p1, st1⟩ := p
      dsimp only
      rw [hrule cfg ver st1 hd h70]
      rfl
  unfold configure_step
  split
  · rfl
  · dsimp only
    cases hl : add_libraries cfg tc deps ver (add_toolchains_opts cfg tc st0) with
    | error e => rfl
    | ok st2 =>
      dsimp only
      cases hp : add_plugins cfg ver st2 with
      | error e => rfl
      | ok st3 =>
        have hx := hplug st2
        rw [hp] at hx
        simp [isErr] at hx

/-- C10 (witness): D3Q requested on QE 7.3 (which passes the
minimum-version gate) aborts configuration. -/
theorem c10_d3q_never_enabled_witness :
    isErr (configure_step { with_d3q := true } ⟨true, false, CompFam.other⟩ []
      [7, 3] ⟨[], [], ""⟩) = true :=
  c10_d3q_never_enabled.2 { with_d3q := true } ⟨true, false, CompFam.other⟩ []
    [7, 3] ⟨[], [], ""⟩ rfl rfl

/-- C3: whenever the summary line that `test_step` locates reports a
rate below the threshold, the step fails with the rate error, for every
allow-list and every unallowed-failure cap: allow-listing never alters
the raw-rate check, which uses the harness's own unfiltered summary
percentage. -/
theorem c3_rate_check_uses_raw_summary (out : List Char)
    (allow : List (List Char)) (thr : ℚ) (maxFail : Nat) (pct nf tot : Nat)
    (hsum : (splitLines out).findSome? parseSummary = some (pct, nf, tot))
    (hrate : Rat.divInt (pct : ℤ) 100 < thr) :
    test_step out allow thr maxFail
      = .error (.rate thr (Rat.divInt (pct : ℤ) 100)) := by
  unfold test_step
  rw [hsum]
  dsimp only
  rw [if_pos hrate]

/-- C3 (witness): a run at 74% with its one failing line allowed and the
unallowed cap of 0 not exceeded still fails the 0.97 rate check. -/
theorem c3_rate_check_uses_raw_summary_witness :
    test_step
      ("1/2 Test #1: sys--ph_base ...***Failed  3.52 sec\n74% tests passed, 124 tests failed out of 481\n".data)
      ["--ph_".data] (Rat.divInt 97 100) 0
      = .error (.rate (Rat.divInt 97 100) (Rat.divInt ((74 : Nat) : ℤ) 100)) :=
  c3_rate_check_uses_raw_summary _ ["--ph_".data] (Rat.divInt 97 100) 0
    74 124 481 (by decide) (by decide)

/-- C4: during the failure scan, a line is recorded as unallowed iff it
carries the failure marker and no allow rule occurs in it as a
(case-sensitive, unanchored) substring; the recorded list is unchanged
under any permutation of the allow rules. -/
theorem c4_unallowed_iff_no_rule_matches :
    (∀ (allow lines : List (List Char)) (l : List Char),
      l ∈ collectFailures allow lines ↔
        l ∈ lines ∧ failMarker l = true ∧ ¬ ∃ a ∈ allow, a <:+: l)
    ∧ (∀ (allow allow' lines : List (List Char)), allow.Perm allow' →
      collectFailures allow lines = collectFailures allow' lines) := by
  constructor
  · intro allow lines l
    unfold collectFailures
    rw [List.mem_filter, Bool.and_eq_true, Bool.not_eq_true',
      allowMatches_eq_false allow l]
  · intro allow allow' lines hp
    unfold collectFailures
    apply List.filter_congr
    intro l _
    have : allowMatches allow l = allowMatches allow' l := by
      rw [Bool.eq_iff_iff, allowMatches_iff, allowMatches_iff]
      constructor
      · rintro ⟨a, ha, hal⟩
        exact ⟨a, hp.mem_iff.mp ha, hal⟩
      · rintro ⟨a, ha, hal⟩
        exact ⟨a, hp.mem_iff.mpr ha, hal⟩
    rw [this]

/-- C4 (witness): swapping two allow rules leaves the recorded unallowed
failures unchanged on a concrete scan. -/
theorem c4_unallowed_iff_no_rule_matches_witness :
    collectFailures ["--hp_".data, "--ph_".data]
        ["9/9 Test #9: sys--epw_x ...***Failed".data]
      = collectFailures ["--ph_".data, "--hp_".data]
        ["9/9 Test #9: sys--epw_x ...***Failed".data] :=
  c4_unallowed_iff_no_rule_matches.2 ["--hp_".data, "--ph_".data]
    ["--ph_".data, "--hp_".data] ["9/9 Test #9: sys--epw_x ...***Failed".data]
    (List.Perm.swap _ _ _)

/-- C7: if no line of the harness output matches the summary pattern,
`test_step` fails with the parse error, regardless of the allow rules,
the thresholds, or any other lines in the text. -/
theorem c7_missing_summary_is_parse_error (out : List Char)
    (allow : List (List Char)) (thr : ℚ) (maxFail : Nat)
    (h : ∀ l ∈ splitLines out, parseSummary l = none) :
    test_step out allow thr maxFail = .error .parse := by
  unfold test_step
  rw [List.findSome?_eq_none_iff.mpr h]

/-- C7 (witness): output with failure lines but no summary line cannot
be judged, whatever the rules and thresholds. -/
theorem c7_missing_summary_is_parse_error_witness :
    test_step "Start 1: sys--pw_x\n1/1 Test #1: sys--pw_x ...***Failed".data
      ["--pw_".data] 0 5 = .error .parse :=
  c7_missing_summary_is_parse_error _ ["--pw_".data] 0 5 (by decide)

end QE
